import Mathlib

/-!
Verification of `ophyd.utils.hkl` (reciprocal-space calculation layer).

Shallow embedding of the repository's Python code. Numeric axis values are
modelled as rationals; Python exceptions are modelled by an explicit error
type returned alongside the post-state. The external Hkl geometry solver
(`gi.repository.Hkl`) is an opaque collaborator: where the repository calls
it for a forward solve, the embedding takes the solver as an explicit
function argument whose result is either a native `GError` or an ordered
list of candidate geometries.
-/

namespace OphydHkl

/-- Python exception kinds observable at this layer. `gerror` is the external
solver's native error class (`GLib.GError`); the others are builtins. -/
inductive PyError where
  | valueError (msg : String)
  | typeError (msg : String)
  | keyError (msg : String)
  | indexError (msg : String)
  | attributeError (msg : String)
  | gerror (msg : String)
deriving Repr, DecidableEq

/-- Python exception-class membership: `LookupError` is the common superclass
of `KeyError` and `IndexError` only; `ValueError` and `TypeError` are not
`LookupError`s. -/
def PyError.isLookupError : PyError → Bool
  | .keyError _ => true
  | .indexError _ => true
  | _ => false

/-- A physical-axis geometry snapshot: ordered (axis name, value) pairs. -/
abbrev Geom := List (String × Rat)

/-- `Solution.__init__` copies the list item's geometry; the wrapper is a
snapshot of one candidate physical-axis configuration. -/
structure Solution where
  geometry : Geom
deriving Repr, DecidableEq

/-- The `Engine` wrapper object (`ophyd.utils.hkl.Engine`). `oid` models
Python object identity (each live wrapper object has a distinct `oid`);
`pseudoNames`/`pseudoValues` are the underlying library engine's pseudo-axis
names and current values; `solutions` is the `_solutions` attribute, which
`Engine.__init__` sets to `None`. -/
structure Engine where
  oid : Nat
  ename : String
  pseudoNames : List String
  pseudoValues : List Rat
  solutions : Option (List Solution)
deriving Repr, DecidableEq

/-- Result of the external solver call
`engine.pseudo_axes_values_set(values, units)`: the GI binding either raises
a native `GLib.GError` or returns an ordered `GeometryList`. -/
inductive SolverResult where
  | gerror (msg : String)
  | geometries (gs : List Geom)
deriving Repr, DecidableEq

/-- The external geometry solver as an opaque oracle from the requested
pseudo-axis vector to its result. -/
abbrev Solver := List Rat → SolverResult

/-- Python `list.index(v)`: index of the first element equal to `v`;
`none` models the `ValueError` raised when no element matches. -/
def listIndex {α : Type} [DecidableEq α] (v : α) : List α → Option Nat
  | [] => none
  | w :: rest => if w = v then some 0 else (listIndex v rest).map (fun i => i + 1)

/-- `Engine.__init__(self, calc, engine, engine_list)`: stores the references
and initializes `self._solutions = None`. -/
def Engine.mkFresh (oid : Nat) (ename : String) (pseudoNames : List String)
    (pseudoValues : List Rat) : Engine :=
  ⟨oid, ename, pseudoNames, pseudoValues, none⟩

/-- `Engine.solutions` property: `tuple(self._solutions)`. When `_solutions`
is still `None`, `tuple(None)` raises `TypeError`. -/
def Engine.solutions_get (e : Engine) : Except PyError (List Solution) :=
  match e.solutions with
  | none => Except.error (PyError.typeError "NoneType object is not iterable")
  | some l => Except.ok l

/-- The `Engine.pseudo_axis_values` setter: calls the external solver; a
native `GLib.GError` is caught and re-raised as
`ValueError('Calculation failed (...)')`; otherwise the returned geometry
list is wrapped as `Solution`s, in exactly the returned order, into
`self._solutions`. On an error the engine state is unchanged (the raise
happens before `_solutions` is assigned). -/
def Engine.pseudo_axis_values_set (e : Engine) (solver : Solver)
    (values : List Rat) : Engine × Option PyError :=
  match solver values with
  | SolverResult.gerror msg =>
      (e, some (PyError.valueError ("Calculation failed (" ++ msg ++ ")")))
  | SolverResult.geometries gs =>
      ({ e with pseudoValues := values,
                solutions := some (gs.map Solution.mk) }, none)

/-- `Engine.__setitem__(self, name, value)`: reads the current full
pseudo-axis vector, replaces the named component (`values[idx] = float(value)`
after `self.pseudo_axis_names.index(name)`), then assigns
`self.pseudo_axis_values`. Note the source wraps `.index` in
`except IndexError`, but `list.index` raises `ValueError` on a missing name,
which therefore propagates uncaught. -/
def Engine.setitem (e : Engine) (solver : Solver) (name : String) (v : Rat) :
    Engine × Option PyError :=
  match listIndex name e.pseudoNames with
  | none => (e, some (PyError.valueError "name is not in list"))
  | some idx => e.pseudo_axis_values_set solver (e.pseudoValues.set idx v)

/-- An underlying library engine in the engine list (name, pseudo-axis names,
current pseudo-axis values), used when the `engine` setter looks an engine up
by name through the `engines` property. -/
structure HklEngine where
  ename : String
  pseudoNames : List String
  pseudoValues : List Rat
deriving Repr, DecidableEq

/-- State of a `CalcRecip` session: the live physical-axis geometry
(`self._geometry`), the active `Engine` wrapper (`self._engine`, `None`
before the first assignment), the `lock_engine` flag, the engine list, and
an allocator for fresh wrapper object identities (the `engines` property
constructs a fresh `Engine` wrapper on every lookup). -/
structure CalcState where
  geometry : Geom
  engine : Option Engine
  lockEngine : Bool
  engineTable : List HklEngine
  nextOid : Nat
deriving Repr, DecidableEq

/-- An argument to the `engine` setter: either an `Engine` wrapper object
(compared to the stored one by Python object identity) or a string name
(looked up in the `engines` dict). -/
inductive EngineArg where
  | wrapper (e : Engine)
  | byName (s : String)
deriving Repr, DecidableEq

/-- The `CalcRecip.engine` setter. `engine is self._engine` (object
identity) returns immediately; a locked session with an engine already set
raises `ValueError` before any mutation; an `ophyd` wrapper object is not an
`hkl_module.Engine`, so it falls to the dict lookup, whose `KeyError` is
re-raised as `ValueError('Unknown engine name or type')`; a known name
installs a fresh wrapper (whose `_solutions` starts as `None`). -/
def CalcState.engine_set (c : CalcState) (arg : EngineArg) :
    CalcState × Option PyError :=
  let isCurrent : Bool :=
    match arg, c.engine with
    | EngineArg.wrapper e, some cur => e.oid == cur.oid
    | _, _ => false
  if isCurrent then (c, none)
  else if c.lockEngine && c.engine.isSome then
    (c, some (PyError.valueError "Engine is locked on this instance"))
  else
    match arg with
    | EngineArg.wrapper _ =>
        (c, some (PyError.valueError "Unknown engine name or type"))
    | EngineArg.byName s =>
        match c.engineTable.find? (fun he => he.ename == s) with
        | some he =>
            ({ c with
                engine := some (Engine.mkFresh c.nextOid he.ename
                                  he.pseudoNames he.pseudoValues),
                nextOid := c.nextOid + 1 }, none)
        | none => (c, some (PyError.valueError "Unknown engine name or type"))

/-- `UsingEngine.__init__(self, calc, engine)` stores only `self.calc = calc`
— the `engine` argument is discarded — and `__enter__` merely records
`self.old_engine = self.calc.engine`. No engine switch is performed on
entry. Returns the state together with the recorded old engine. -/
def using_engine_enter (c : CalcState) (_requested : EngineArg) :
    CalcState × Option Engine :=
  (c, c.engine)

/-- `UsingEngine.__exit__`: restores `self.calc.engine = self.old_engine`
only when the recorded engine is not `None`. -/
def using_engine_exit (c : CalcState) (old : Option Engine) :
    CalcState × Option PyError :=
  match old with
  | none => (c, none)
  | some e => c.engine_set (EngineArg.wrapper e)

/-- `CalcRecip.physical_axis_names`: `self._geometry.axes_names_get()`. -/
def CalcState.physical_axis_names (c : CalcState) : List String :=
  c.geometry.map Prod.fst

/-- Setting the value of a named physical-axis parameter on the live
geometry (the effect of `param = self[axis]; param.value = value`). -/
def setAxisValue (g : Geom) (axis : String) (v : Rat) : Geom :=
  g.map (fun p => if p.1 = axis then (p.1, v) else p)

/-- The statement `calc.engine[name] = value` in session context: the active
`Engine` wrapper performs `Engine.__setitem__`; nothing in that method
touches the live geometry (`self._calc._geometry`) and no solution is
selected. `AttributeError` models indexing when `self._engine` is `None`. -/
def CalcState.engine_setitem (c : CalcState) (solver : Solver) (name : String)
    (v : Rat) : CalcState × Option PyError :=
  match c.engine with
  | none => (c, some (PyError.attributeError "NoneType has no attribute"))
  | some e =>
      let r := e.setitem solver name v
      ({ c with engine := some r.1 }, r.2)

/-- `CalcRecip.__setitem__(self, axis, value)`: dispatch on membership in the
physical-axis names, else the active engine's pseudo-axis names; there is no
final `else`, so an unknown axis name falls through silently. When the
second branch is reached with `self._engine = None`, attribute access on
`None` raises `AttributeError`. -/
def CalcState.setitem (c : CalcState) (solver : Solver) (axis : String)
    (v : Rat) : CalcState × Option PyError :=
  if axis ∈ c.physical_axis_names then
    ({ c with geometry := setAxisValue c.geometry axis v }, none)
  else
    match c.engine with
    | none => (c, some (PyError.attributeError "NoneType has no attribute"))
    | some e =>
        if axis ∈ e.pseudoNames then c.engine_setitem solver axis v
        else (c, none)

/-- `Solution.select`: `self._engine._engine_list.select_solution(item)`. In
the library this copies the selected solution's geometry into the live
geometry bound by `engine_list.init(...)` (i.e. `calc._geometry`). Nothing
touches the wrapper `Engine`'s `_solutions` attribute. -/
def CalcState.select_solution (c : CalcState) (s : Solution) : CalcState :=
  { c with geometry := s.geometry }

/-- A stored reflection: the (h, k, l) triple plus the physical-axis
geometry at which it was recorded (`add_reflection` captures the session's
current geometry). -/
structure Reflection where
  h : Rat
  k : Rat
  l : Rat
  geom : Geom
deriving Repr, DecidableEq

/-- `refl.hkl_get()`. -/
def Reflection.hkl (r : Reflection) : Rat × Rat × Rat := (r.h, r.k, r.l)

/-- `HklSample`'s reflection list (insertion order). -/
structure Sample where
  reflections : List Reflection
deriving Repr, DecidableEq

/-- The `HklSample.reflections` property:
`[refl.hkl_get() for refl in self._sample.reflections_get()]`. -/
def Sample.hkl_list (s : Sample) : List (Rat × Rat × Rat) :=
  s.reflections.map Reflection.hkl

/-- `HklSample.remove_reflection(refl)` in the case where `refl` is an
(h, k, l) value rather than a `SampleReflection` handle: the source computes
`index = self.reflections.index(refl)` (first match; `list.index` raises
`ValueError` when absent) and deletes the reflection at that index. -/
def Sample.remove_reflection_value (s : Sample) (v : Rat × Rat × Rat) :
    Sample × Option PyError :=
  match listIndex v s.hkl_list with
  | none => (s, some (PyError.valueError "value is not in list"))
  | some i => (⟨s.reflections.eraseIdx i⟩, none)

/-- Reference recursion following the claim's wording: remove the first
stored reflection whose (h, k, l) equals the value; `none` when no stored
reflection matches. -/
def removeFirstByValue (v : Rat × Rat × Rat) : List Reflection → Option (List Reflection)
  | [] => none
  | r :: rest =>
      if r.hkl = v then some rest
      else (removeFirstByValue v rest).map (fun rs => r :: rs)

/-- `np.linspace(a, b, num)`: `num` evenly spaced samples from `a` to `b`,
both endpoints included (for `num ≥ 2` the step is `(b - a) / (num - 1)`;
over the rationals the final sample equals `b` exactly, as numpy also
guarantees). -/
def linspace (a b : Rat) (num : Nat) : List Rat :=
  match num with
  | 0 => []
  | 1 => [a]
  | m + 2 =>
      (List.range (m + 2)).map
        (fun i => a + (b - a) * (i : Rat) / ((m + 1 : Nat) : Rat))

/-- Python `zip(*lists)`: tuples of components, truncated to the shortest
input list; `zip()` of no lists is empty. -/
def zipStar (ls : List (List Rat)) : List (List Rat) :=
  match ls with
  | [] => []
  | l :: rest =>
      let k := rest.foldl (fun m l2 => min m l2.length) l.length
      (List.range k).map (fun i => (l :: rest).map (fun s => s.getD i 0))

/-- `CalcRecip.calc_linear_path(start, end, n, num_params=0)`: one
`np.linspace(start[i], end[i], n + 1)` per axis index `i < num_params`,
then `list(zip(*singles))`. Out-of-range indexing (which would raise
`IndexError` in Python) does not occur for `num_params ≤ len(start)`; the
embedding totalizes it with a default of 0. -/
def calc_linear_path (start fin2 : List Rat) (n : Nat) (num_params : Nat) :
    List (List Rat) :=
  zipStar ((List.range num_params).map
    (fun i => linspace (start.getD i 0) (fin2.getD i 0) (n + 1)))

/-- The direct call `calc_linear_path(start, end, n)` with `num_params` left
at its Python default of `0`. -/
def calc_linear_path_default (start fin2 : List Rat) (n : Nat) :
    List (List Rat) :=
  calc_linear_path start fin2 n 0

/-! ### Concrete instances used by counterexamples and witnesses -/

/-- Engine list of a session with an "hkl" and a "q2" engine (pseudo-axis
names as in the K6C example of the repository). -/
def tableK6C : List HklEngine :=
  [⟨"hkl", ["h", "k", "l"], [0, 0, 0]⟩, ⟨"q2", ["q", "alpha"], [0, 0]⟩]

/-- The active "hkl" engine wrapper of the example session, fresh. -/
def engHkl : Engine := Engine.mkFresh 0 "hkl" ["h", "k", "l"] [0, 0, 0]

/-- A small physical geometry (two axes suffice). -/
def geomZero : Geom := [("mu", 0), ("komega", 0)]

/-- An unlocked session whose active engine is `engHkl`. -/
def calcUnlocked : CalcState :=
  { geometry := geomZero, engine := some engHkl, lockEngine := false,
    engineTable := tableK6C, nextOid := 1 }

/-- A locked session (`lock_engine=True`) whose active engine is `engHkl`. -/
def calcLocked : CalcState :=
  { geometry := geomZero, engine := some engHkl, lockEngine := true,
    engineTable := tableK6C, nextOid := 1 }

/-- Two distinct candidate solutions. -/
def solA : Solution := ⟨[("mu", 1), ("komega", 2)]⟩

/-- Second candidate solution. -/
def solB : Solution := ⟨[("mu", 3), ("komega", 4)]⟩

/-- An engine holding a non-empty pending solution set. -/
def engSolved : Engine :=
  { engHkl with pseudoValues := [1, 0, 0], solutions := some [solA, solB] }

/-- A session whose active engine holds the pending solutions. -/
def calcSolved : CalcState :=
  { geometry := geomZero, engine := some engSolved, lockEngine := false,
    engineTable := tableK6C, nextOid := 1 }

/-- One candidate geometry returned by the solver, different from the
session's live geometry. -/
def geomCand : Geom := [("mu", 10), ("komega", 20)]

/-- A solver that always returns the single candidate `geomCand`. -/
def solverOne : Solver := fun _ => SolverResult.geometries [geomCand]

/-- A solver that returns zero candidate geometries (an empty list, without
raising). -/
def solverEmpty : Solver := fun _ => SolverResult.geometries []

/-- A solver that raises its native `GLib.GError`. -/
def solverErr : Solver := fun _ => SolverResult.gerror "no solution"

/-- A reflection at (1, 1, 1) recorded at geometry `geomZero`. -/
def reflA : Reflection := ⟨1, 1, 1, geomZero⟩

/-- A second reflection with the same (h, k, l) but a different recorded
geometry, to distinguish first-match removal. -/
def reflB : Reflection := ⟨1, 1, 1, geomCand⟩

/-- A sample holding two reflections with equal (h, k, l). -/
def sampleTwo : Sample := ⟨[reflA, reflB]⟩

/-- A sample with no reflections. -/
def sampleEmpty : Sample := ⟨[]⟩

/-! ### Theorems -/

/-- C1: evaluating the code at the failing input. On a session whose active
engine is the "hkl" wrapper, entering `using_engine("q2")` leaves the active
engine as the "hkl" wrapper — the requested engine is discarded by
`UsingEngine.__init__` and `__enter__` only records the old engine — even
though a direct `engine` assignment to "q2" would succeed (so the failure is
not for lack of a "q2" engine); exiting restores the recorded engine, a
no-op here. The claim says entry switches the session to the requested
engine; the code never switches. -/
theorem using_engine_enter_does_not_switch :
    (using_engine_enter calcUnlocked (EngineArg.byName "q2")).1.engine = some engHkl ∧
    (using_engine_enter calcUnlocked (EngineArg.byName "q2")).2 = some engHkl ∧
    engHkl.ename = "hkl" ∧
    (calcUnlocked.engine_set (EngineArg.byName "q2")).2 = none ∧
    (using_engine_exit calcUnlocked (some engHkl)).1.engine = some engHkl := by
  refine ⟨rfl, rfl, rfl, by decide, by decide⟩

/-- C2 counterexample: on a session whose active engine holds the pending
solution set `[solA, solB]`, selecting `solA` commits its geometry as the
live geometry but leaves the engine — including its pending solution set —
exactly as it was, refuting the claim that `select()` clears the pending
solution set. -/
theorem select_solution_keeps_pending_set :
    (calcSolved.select_solution solA).geometry = solA.geometry ∧
    (calcSolved.select_solution solA).engine = calcSolved.engine ∧
    calcSolved.engine = some engSolved ∧
    engSolved.solutions = some [solA, solB] :=
  ⟨rfl, rfl, rfl, rfl⟩

/-- C2 amended: `select()` commits the Solution's physical-axis configuration
as the live geometry; the Engine (and hence its pending solution set) is
left unchanged — it is only superseded by the next solve. -/
theorem select_solution_commits_geometry (c : CalcState) (s : Solution) :
    (c.select_solution s).geometry = s.geometry ∧
    (c.select_solution s).engine = c.engine :=
  ⟨rfl, rfl⟩

/-- C3 counterexample: writing `engine["h"] = 1` on a session with live
geometry `geomZero` and a solver returning the single candidate `geomCand`
succeeds, stores the candidate as the pending solution set, but leaves the
live geometry at `geomZero` — although the first returned Solution's
geometry `geomCand` differs — refuting the claim that the write commits the
first Solution as the new live physical-axis state. -/
theorem engine_setitem_does_not_commit_first_solution :
    (calcUnlocked.engine_setitem solverOne "h" 1).2 = none ∧
    (calcUnlocked.engine_setitem solverOne "h" 1).1.geometry = calcUnlocked.geometry ∧
    (calcUnlocked.engine_setitem solverOne "h" 1).1.engine =
      some { engHkl with pseudoValues := [1, 0, 0],
                         solutions := some [Solution.mk geomCand] } ∧
    geomCand ≠ calcUnlocked.geometry := by
  refine ⟨rfl, rfl, by decide, by decide⟩

/-- C3 amended: for a valid pseudo-axis name, `engine[name] = v` performs a
forward solve on the current full pseudo-axis vector with only the named
component replaced by `v`, and stores the returned candidates as the pending
solution set in order; it does not commit any Solution — the live
physical-axis geometry is unchanged. -/
theorem engine_setitem_solves_replaced_component (c : CalcState) (solver : Solver)
    (e : Engine) (name : String) (v : Rat) (idx : Nat) (gs : List Geom)
    (he : c.engine = some e)
    (hidx : listIndex name e.pseudoNames = some idx)
    (hs : solver (e.pseudoValues.set idx v) = SolverResult.geometries gs) :
    c.engine_setitem solver name v =
      ({ c with engine := some { e with pseudoValues := e.pseudoValues.set idx v,
                                        solutions := some (gs.map Solution.mk) } },
       none) ∧
    (c.engine_setitem solver name v).1.geometry = c.geometry := by
  have h1 : c.engine_setitem solver name v =
      ({ c with engine := some { e with pseudoValues := e.pseudoValues.set idx v,
                                        solutions := some (gs.map Solution.mk) } },
       none) := by
    simp only [CalcState.engine_setitem, he]
    simp only [Engine.setitem, hidx]
    simp only [Engine.pseudo_axis_values_set, hs]
  exact ⟨h1, by rw [h1]⟩

/-- C3 amended, witness at a concrete input. -/
theorem engine_setitem_solves_replaced_component_witness :
    calcUnlocked.engine_setitem solverOne "h" 1 =
      ({ calcUnlocked with
          engine := some { engHkl with
                            pseudoValues := engHkl.pseudoValues.set 0 1,
                            solutions := some ([geomCand].map Solution.mk) } },
       none) ∧
    (calcUnlocked.engine_setitem solverOne "h" 1).1.geometry = calcUnlocked.geometry :=
  engine_setitem_solves_replaced_component calcUnlocked solverOne engHkl "h" 1 0
    [geomCand] rfl rfl rfl

/-- C4 counterexample: a solver that returns zero candidate geometries (an
empty geometry list, without raising) makes the forward solve succeed with
an empty pending solution set and no error, refuting the claim that zero
candidates is reported as a ValueError. -/
theorem zero_candidates_not_valueerror :
    engHkl.pseudo_axis_values_set solverEmpty [1, 1, 1] =
      ({ engHkl with pseudoValues := [1, 1, 1], solutions := some [] }, none) :=
  rfl

/-- C4 amended: a native solver error is wrapped uniformly as
`ValueError('Calculation failed (...)')`, so the solver's native error kind
never reaches the caller; candidate geometries actually returned by the
solver (zero or more) are wrapped as Solutions in exactly the returned
order, without re-sorting — an empty returned list yields an empty pending
set with no error rather than a ValueError. -/
theorem pseudo_axis_values_set_spec (e : Engine) (solver : Solver)
    (values : List Rat) :
    (∀ msg, solver values = SolverResult.gerror msg →
        e.pseudo_axis_values_set solver values =
          (e, some (PyError.valueError ("Calculation failed (" ++ msg ++ ")")))) ∧
    (∀ gs, solver values = SolverResult.geometries gs →
        e.pseudo_axis_values_set solver values =
          ({ e with pseudoValues := values, solutions := some (gs.map Solution.mk) },
           none)) := by
  constructor
  · intro msg h
    unfold Engine.pseudo_axis_values_set
    rw [h]
  · intro gs h
    unfold Engine.pseudo_axis_values_set
    rw [h]

/-- C4 amended, witness at a concrete input: the native error is observed by
the caller only as the wrapped ValueError. -/
theorem pseudo_axis_values_set_spec_witness :
    engHkl.pseudo_axis_values_set solverErr [1, 1, 1] =
      (engHkl,
       some (PyError.valueError ("Calculation failed (" ++ "no solution" ++ ")"))) :=
  (pseudo_axis_values_set_spec engHkl solverErr [1, 1, 1]).1 "no solution" rfl

/-- C5: evaluating the code at the failing input. The direct call
`calc_linear_path((0,1,0), (0,1,0.1), n=10)` leaves `num_params` at its
default of 0, so the code interpolates zero axes and returns the empty list
— not the 11 vectors the claim states. Called as `get_path` calls it, with
`num_params = 3`, it does return 11 vectors whose third components
interpolate evenly from 0 to 1/10. -/
theorem calc_linear_path_default_is_empty :
    calc_linear_path_default [0, 1, 0] [0, 1, 1/10] 10 = [] ∧
    (calc_linear_path [0, 1, 0] [0, 1, 1/10] 10 3).length = 11 ∧
    (calc_linear_path [0, 1, 0] [0, 1, 1/10] 10 3).map (fun vec => vec.getD 2 0) =
      (List.range 11).map (fun i => (i : Rat) / 100) := by
  refine ⟨rfl, by decide,
    by norm_num [calc_linear_path, linspace, zipStar, List.range_succ]⟩

/-- C6 counterexample: removing an (h, k, l) value from a sample with no
matching reflection fails with ValueError (propagated from `list.index`),
and ValueError is not a LookupError in Python's exception hierarchy,
refuting the claim that the failure is a LookupError. -/
theorem remove_reflection_missing_raises_valueerror :
    sampleEmpty.remove_reflection_value (1, 2, 3) =
      (sampleEmpty, some (PyError.valueError "value is not in list")) ∧
    PyError.isLookupError (PyError.valueError "value is not in list") = false :=
  ⟨rfl, rfl⟩

/-- Helper: the index-based removal of the source equals the first-match
recursion, position by position. -/
theorem removeFirst_eq_listIndex (v : Rat × Rat × Rat) (rs : List Reflection) :
    removeFirstByValue v rs = (listIndex v (rs.map Reflection.hkl)).map rs.eraseIdx := by
  induction rs with
  | nil => rfl
  | cons r rest ih =>
      by_cases h : r.hkl = v
      · simp [removeFirstByValue, listIndex, h]
      · simp only [removeFirstByValue, List.map_cons, listIndex, h, if_neg, ih,
          Option.map_map]
        cases listIndex v (rest.map Reflection.hkl) <;>
          simp [List.eraseIdx, Function.comp]

/-- C6 amended: `remove_reflection` called with an (h, k, l) value removes
the first stored Reflection whose (h, k, l) equals that value, and fails
with ValueError (not LookupError) when no stored Reflection matches. -/
theorem remove_reflection_first_match (s : Sample) (v : Rat × Rat × Rat) :
    (∀ rs, removeFirstByValue v s.reflections = some rs →
        s.remove_reflection_value v = (⟨rs⟩, none)) ∧
    (removeFirstByValue v s.reflections = none →
        s.remove_reflection_value v =
          (s, some (PyError.valueError "value is not in list"))) := by
  constructor
  · intro rs h
    rw [removeFirst_eq_listIndex] at h
    unfold Sample.remove_reflection_value Sample.hkl_list
    cases hidx : listIndex v (s.reflections.map Reflection.hkl) with
    | none => rw [hidx] at h; exact absurd h (by simp)
    | some i =>
        rw [hidx] at h
        simp only [Option.map_some'] at h
        obtain rfl : s.reflections.eraseIdx i = rs := Option.some.inj h
        rfl
  · intro h
    rw [removeFirst_eq_listIndex] at h
    unfold Sample.remove_reflection_value Sample.hkl_list
    cases hidx : listIndex v (s.reflections.map Reflection.hkl) with
    | none => rfl
    | some i => rw [hidx] at h; exact absurd h (by simp)

/-- C6 amended, witness at a concrete input: of two reflections sharing the
(h, k, l) value, the first is removed. -/
theorem remove_reflection_first_match_witness :
    sampleTwo.remove_reflection_value (1, 1, 1) = (⟨[reflB]⟩, none) :=
  (remove_reflection_first_match sampleTwo (1, 1, 1)).1 [reflB] rfl

/-- C7: on a locked session with an active engine, assigning anything other
than the very engine object already active — another wrapper, or any name —
fails with ValueError and leaves the session (its active engine and thus its
pseudo-axis names) unchanged; assigning the currently active engine object
itself is a silent no-op. -/
theorem engine_locked_switch_fails (c : CalcState) (e : Engine) (arg : EngineArg)
    (hl : c.lockEngine = true) (he : c.engine = some e)
    (hdiff : ∀ e2, arg = EngineArg.wrapper e2 → e2.oid ≠ e.oid) :
    c.engine_set arg =
      (c, some (PyError.valueError "Engine is locked on this instance")) ∧
    c.engine_set (EngineArg.wrapper e) = (c, none) := by
  refine ⟨?_, ?_⟩
  · cases arg with
    | wrapper e2 =>
        have hne : (e2.oid == e.oid) = false :=
          beq_eq_false_iff_ne.mpr (hdiff e2 rfl)
        simp [CalcState.engine_set, he, hne, hl]
    | byName s =>
        simp [CalcState.engine_set, he, hl]
  · simp [CalcState.engine_set, he]

/-- C7, witness at a concrete input. -/
theorem engine_locked_switch_fails_witness :
    calcLocked.engine_set (EngineArg.byName "q2") =
      (calcLocked, some (PyError.valueError "Engine is locked on this instance")) ∧
    calcLocked.engine_set (EngineArg.wrapper engHkl) = (calcLocked, none) :=
  engine_locked_switch_fails calcLocked engHkl (EngineArg.byName "q2") rfl rfl
    (fun _ h => EngineArg.noConfusion h)

/-- C9: a freshly constructed Engine (on which no forward solve has run) has
`_solutions = None`, so reading the `solutions` property evaluates
`tuple(None)` and raises TypeError — in particular it does not return an
empty tuple. -/
theorem fresh_engine_solutions_raises (oid : Nat) (ename : String)
    (pns : List String) (pvs : List Rat) :
    (Engine.mkFresh oid ename pns pvs).solutions_get =
      Except.error (PyError.typeError "NoneType object is not iterable") :=
  rfl

/-- C10: writing `session[axis] = value` for an axis name that is neither a
physical-axis name nor a pseudo-axis name of the active engine is a silent
no-op: no exception, and the session state (all physical and pseudo axis
values) is returned unchanged. -/
theorem setitem_unknown_axis_silent_noop (c : CalcState) (solver : Solver)
    (e : Engine) (axis : String) (v : Rat)
    (he : c.engine = some e)
    (hphys : axis ∉ c.physical_axis_names)
    (hpseudo : axis ∉ e.pseudoNames) :
    c.setitem solver axis v = (c, none) := by
  unfold CalcState.setitem
  rw [if_neg hphys, he]
  simp [hpseudo]

/-- C10, witness at a concrete input. -/
theorem setitem_unknown_axis_silent_noop_witness :
    calcUnlocked.setitem solverOne "bogus" 1 = (calcUnlocked, none) :=
  setitem_unknown_axis_silent_noop calcUnlocked solverOne engHkl "bogus" 1 rfl
    (by decide) (by decide)

end OphydHkl
